import Mathlib

/-!
Shallow embedding of the lead-management backend (`backend/server.py`) and
verification of its specification.

Modelling conventions:
* MongoDB collections are Lean lists; `insert_one` appends, `find_one` is
  `List.find?`, `update_one` rewrites the first matching record.
* Timestamps are stored as ISO-8601 strings (exactly as the handlers store
  them via `isoformat()`); the current instant and freshly generated UUIDs
  are passed to each handler as explicit parameters.
* `HTTPException(status_code, detail)` becomes the error of an `Except`;
  raising aborts the handler before any further state change, so an error
  result carries no new database state.
* String comparison (Mongo sorts BSON strings bytewise; timestamps here are
  ASCII) is lexicographic comparison of the character list `String.data`.
-/

namespace Uninorte

/-- A JSON/BSON-like field value inside a stored document. -/
inductive Value where
  | str (s : String)
  | bool (b : Bool)
  | null
  deriving DecidableEq, Repr

/-- A user document as stored in the `users` collection: the fields written
by `create_user` (`User.model_dump()` plus `senha_hash`) and by the seed
data. -/
structure UserRec where
  id : String
  email : String
  nome : String
  tipo : String
  ativo : Bool
  senha_hash : String
  criado_em : String
  deriving DecidableEq, Repr

/-- A lead document as stored in the `leads` collection (`Lead` model). -/
structure LeadRec where
  id : String
  nome_completo : String
  telefone : String
  curso : String
  status : String
  vendedor_id : String
  vendedor_nome : String
  criado_em : String
  atualizado_em : String
  deriving DecidableEq, Repr

/-- A course document (`Course` model). -/
structure CourseRec where
  id : String
  nome : String
  ativo : Bool
  deriving DecidableEq, Repr

/-- A lead-status document (`LeadStatusModel`). -/
structure StatusRec where
  id : String
  nome : String
  cor : String
  deriving DecidableEq, Repr

/-- An audit-log document (`AuditLog` model). -/
structure AuditRec where
  id : String
  usuario_id : String
  usuario_nome : String
  acao : String
  entidade : String
  entidade_id : String
  detalhes : Option String
  criado_em : String
  deriving DecidableEq, Repr

/-- The whole document store (`db`): one list per collection used by the
backend. -/
structure DB where
  users : List UserRec
  leads : List LeadRec
  courses : List CourseRec
  lead_status : List StatusRec
  audit_logs : List AuditRec
  deriving DecidableEq, Repr

/-- `HTTPException(status_code, detail)`. -/
structure HTTPError where
  status_code : Nat
  detail : String
  deriving DecidableEq, Repr

instance {ε α : Type} [DecidableEq ε] [DecidableEq α] : DecidableEq (Except ε α) := fun x y =>
  match x, y with
  | .error a, .error b =>
      if h : a = b then isTrue (congrArg Except.error h)
      else isFalse (fun hc => h (Except.error.inj hc))
  | .error _, .ok _ => isFalse (fun hc => Except.noConfusion hc)
  | .ok _, .error _ => isFalse (fun hc => Except.noConfusion hc)
  | .ok a, .ok b =>
      if h : a = b then isTrue (congrArg Except.ok h)
      else isFalse (fun hc => h (Except.ok.inj hc))

/-- Bytewise/lexicographic order on ISO timestamp strings, as Mongo compares
BSON strings (the timestamps are ASCII, so character order is byte order). -/
def strLe (a b : String) : Prop := a.data ≤ b.data

instance (a b : String) : Decidable (strLe a b) := by unfold strLe; infer_instance

/-- Strict version of `strLe`. -/
def strLt (a b : String) : Prop := a.data < b.data

instance (a b : String) : Decidable (strLt a b) := by unfold strLt; infer_instance

instance : IsTrans (String × Nat) (fun a b => strLe b.1 a.1) :=
  ⟨fun _ _ _ h1 h2 => le_trans h2 h1⟩

instance : IsTotal (String × Nat) (fun a b => strLe b.1 a.1) :=
  ⟨fun a b => le_total b.1.data a.1.data⟩

/-- The first seven characters of a string: Mongo's
`{"$substr": [s, 0, 7]}` on the stored ASCII timestamps. -/
def substr7 (s : String) : String := ⟨s.data.take 7⟩

/-- Rewrite the first record matching `p` (Mongo `update_one`); later
matches are untouched. -/
def updateFirst (p : α → Bool) (f : α → α) : List α → List α
  | [] => []
  | x :: xs => if p x then f x :: xs else x :: updateFirst p f xs

/-! ### Credential primitives (`bcrypt`)

The backend calls the `bcrypt` library as a black box.  The model below
mirrors its documented behaviour: a bcrypt hash is a `$`-separated string
`$2b$12$<salt>$<digest>`; `checkpw` recomputes the hash from the candidate
password and the salt embedded in the stored hash and compares, and it
raises `ValueError("Invalid salt")` when the stored hash is not of bcrypt
shape.  The one-way digest is modelled by a collision-free encoding (the
model keeps the password as the digest), which captures the functional
contract `checkpw(p, hashpw(p, s)) = true` and
`checkpw(q, hashpw(p, s)) = false` for `q ≠ p`. -/

/-- Model of `bcrypt.hashpw`: builds a bcrypt-shaped hash from the password
and an explicitly supplied salt (the salt parameter stands for
`bcrypt.gensalt()`'s fresh randomness). -/
def bcrypt_hashpw (password salt : String) : String :=
  "$2b$12$" ++ salt ++ "$" ++ password

/-- Split a character list at every `'$'` (the behaviour of
`"….".split("$")` for the one-character separator). -/
def splitDollar : List Char → List (List Char)
  | [] => [[]]
  | c :: cs =>
    let r := splitDollar cs
    if c = '$' then [] :: r
    else
      match r with
      | [] => [[c]]
      | h :: t => (c :: h) :: t

/-- The `$`-separated components of a string. -/
def dollarParts (s : String) : List String :=
  (splitDollar s.data).map (fun l => ⟨l⟩)

/-- Model of `bcrypt.checkpw`: on a bcrypt-shaped stored hash
(`$2b$12$<salt>$<digest>`, salts are `$`-free base64) it recomputes the
hash of the candidate password under the stored salt and compares —
equivalently, compares the stored digest with the candidate; on a
malformed hash it raises `ValueError` (the `Except.error` branch). -/
def bcrypt_checkpw (password hashed : String) : Except String Bool :=
  match dollarParts hashed with
  | ["", "2b", "12", _salt, digest] => .ok (digest == password)
  | _ => .error "Invalid salt"

/-- `hash_password` from the source: `bcrypt.hashpw(password, gensalt())`,
with the generated salt passed explicitly. -/
def hash_password (password salt : String) : String :=
  bcrypt_hashpw password salt

/-- `verify_password` from the source: a bare call to `bcrypt.checkpw`
with no exception handling of its own, so the library's `ValueError` on a
malformed hash propagates. -/
def verify_password (plain_password hashed_password : String) : Except String Bool :=
  bcrypt_checkpw plain_password hashed_password

/-! ### JWT primitives -/

/-- The claim set carried by an access token: `sub`, `tipo`, `exp`
 (`exp` as a unix instant in seconds). -/
structure TokenPayload where
  sub : Option String
  tipo : String
  exp : Nat
  deriving DecidableEq, Repr

/-- A bearer token as the JWT library classifies it: either its signature
does not verify (malformed) or it is a well-signed claim set. -/
inductive JwtToken where
  | malformed
  | signed (payload : TokenPayload)
  deriving DecidableEq, Repr

/-- `create_access_token`: signs `{sub, tipo, exp := now + 480 minutes}`. -/
def create_access_token (sub : String) (tipo : String) (now : Nat) : JwtToken :=
  .signed { sub := some sub, tipo := tipo, exp := now + 480 * 60 }

/-- `get_current_user`: decode the bearer token (expired → 401, bad
signature → 401, missing `sub` → 401), then look the subject up in the
`users` collection (absent → 401).  Note that the user's `ativo` flag is
*not* consulted. -/
def get_current_user (db : DB) (token : JwtToken) (now : Nat) : Except HTTPError UserRec :=
  match token with
  | .malformed => .error ⟨401, "Token inválido"⟩
  | .signed payload =>
    if payload.exp ≤ now then .error ⟨401, "Token expirado"⟩
    else
      match payload.sub with
      | none => .error ⟨401, "Token inválido"⟩
      | some user_id =>
        match db.users.find? (fun u => u.id == user_id) with
        | none => .error ⟨401, "Usuário não encontrado"⟩
        | some user => .ok user

/-- `log_audit`: build an `AuditLog` document and `insert_one` it into
`audit_logs` (the fresh UUID and the timestamp are explicit parameters). -/
def log_audit (db : DB) (usuario_id usuario_nome acao entidade entidade_id : String)
    (detalhes : Option String) (audit_id now : String) : DB :=
  { db with audit_logs := db.audit_logs ++
      [{ id := audit_id, usuario_id := usuario_id, usuario_nome := usuario_nome,
         acao := acao, entidade := entidade, entidade_id := entidade_id,
         detalhes := detalhes, criado_em := now }] }

/-! ### Serialization of user documents

The Mongo document for a user, as a key/value list in model-declaration
order (`User.model_dump()` order, with `senha_hash` appended last as
`create_user` does). -/

/-- The stored user document's fields. -/
def userDocFields (u : UserRec) : List (String × Value) :=
  [("email", .str u.email), ("nome", .str u.nome), ("tipo", .str u.tipo),
   ("id", .str u.id), ("ativo", .bool u.ativo),
   ("criado_em", .str u.criado_em), ("senha_hash", .str u.senha_hash)]

/-- `{k: v for k, v in user.items() if k != 'senha_hash'}` — also the
effect of the Mongo projection `{"senha_hash": 0}`. -/
def stripSenhaHash (doc : List (String × Value)) : List (String × Value) :=
  doc.filter (fun kv => kv.1 ≠ "senha_hash")

/-! ### Authentication endpoints -/

/-- Request body of `POST /api/auth/login` (`UserLogin` model). -/
structure UserLogin where
  email : String
  senha : String
  deriving DecidableEq, Repr

/-- Response of `login` (`Token` model): the JWT, the literal token type
and the user document with `senha_hash` stripped. -/
structure Token where
  access_token : JwtToken
  token_type : String
  user : List (String × Value)
  deriving DecidableEq, Repr

/-- `login`: find the user by email; a missing user and a wrong password
fall into the same generic 401; a correct password on a deactivated
account is a distinct 403; otherwise issue a token and return the user
data without `senha_hash`.  (`user.get('ativo', True)` — the model's user
documents always carry `ativo`, so the default never fires.  A
`ValueError` escaping `verify_password` would be an unhandled exception,
i.e. a 500.) -/
def login (db : DB) (user_login : UserLogin) (now : Nat) : Except HTTPError Token :=
  match db.users.find? (fun u => u.email == user_login.email) with
  | none => .error ⟨401, "Email ou senha incorretos"⟩
  | some user =>
    match verify_password user_login.senha user.senha_hash with
    | .error _ => .error ⟨500, "Internal Server Error"⟩
    | .ok ok =>
      if !ok then .error ⟨401, "Email ou senha incorretos"⟩
      else if !user.ativo then .error ⟨403, "Usuário desativado"⟩
      else
        .ok { access_token := create_access_token user.id user.tipo now,
              token_type := "bearer",
              user := stripSenhaHash (userDocFields user) }

/-- `get_me`: the resolved user's document with `senha_hash` removed. -/
def get_me (current_user : UserRec) : List (String × Value) :=
  (userDocFields current_user).filter (fun kv => kv.1 ≠ "senha_hash")

/-! ### Lead endpoints -/

/-- Request body of `POST /api/leads` (`LeadCreate` model). -/
structure LeadCreate where
  nome_completo : String
  telefone : String
  curso : String
  deriving DecidableEq, Repr

/-- Look a key up in a raw JSON body. -/
def lookupField (body : List (String × Value)) (k : String) : Option Value :=
  (body.find? (fun kv => kv.1 == k)).map (·.2)

/-- Pydantic validation of a raw JSON body against `LeadCreate`: the three
declared fields are required strings and every other key (in particular any
caller-supplied `vendedor_id` or `vendedor_nome`) is dropped, since the
model declares no such field. -/
def parseLeadCreate (body : List (String × Value)) : Option LeadCreate :=
  match lookupField body "nome_completo", lookupField body "telefone",
        lookupField body "curso" with
  | some (.str n), some (.str t), some (.str c) =>
      some { nome_completo := n, telefone := t, curso := c }
  | _, _, _ => none

/-- `create_lead`: seller-only; builds the `Lead` with the caller's
identity stamped as owner, default status `"Novo"`, both timestamps set to
the current instant, inserts it and writes one CREATE audit entry. -/
def create_lead (db : DB) (lead_data : LeadCreate) (current_user : UserRec)
    (lead_id now audit_id : String) : Except HTTPError (LeadRec × DB) :=
  if current_user.tipo ≠ "vendedor" then
    .error ⟨403, "Apenas vendedores podem criar leads"⟩
  else
    let lead : LeadRec :=
      { id := lead_id, nome_completo := lead_data.nome_completo,
        telefone := lead_data.telefone, curso := lead_data.curso,
        status := "Novo", vendedor_id := current_user.id,
        vendedor_nome := current_user.nome,
        criado_em := now, atualizado_em := now }
    let db1 := { db with leads := db.leads ++ [lead] }
    let db2 := log_audit db1 current_user.id current_user.nome "CREATE" "lead" lead.id
      (some ("Lead criado: " ++ lead.nome_completo)) audit_id now
    .ok (lead, db2)

/-- `get_my_leads`: seller-only; the seller's own leads, capped at 1000. -/
def get_my_leads (db : DB) (current_user : UserRec) : Except HTTPError (List LeadRec) :=
  if current_user.tipo ≠ "vendedor" then .error ⟨403, "Acesso negado"⟩
  else .ok ((db.leads.filter (fun l => l.vendedor_id == current_user.id)).take 1000)

/-- Result shape of `get_leads_stats`. -/
structure StatsResult where
  total : Nat
  monthly : List (String × Nat)
  deriving DecidableEq, Repr

/-- The `$group` stage keyed by `{"$substr": ["$criado_em", 0, 7]}` with
`{"$sum": 1}`: one `(month, count)` pair per distinct month key.  (Mongo
emits groups in unspecified order; a later `$sort` fixes the order.) -/
def monthlyBuckets (criado : List String) : List (String × Nat) :=
  ((criado.map substr7).dedup).map
    (fun k => (k, criado.countP (fun s => substr7 s == k)))

/-- The `{"$sort": {"_id": -1}}` stage on `(key, count)` groups. -/
def sortPeriodsDesc (l : List (String × Nat)) : List (String × Nat) :=
  List.insertionSort (fun a b => strLe b.1 a.1) l

/-- `get_leads_stats`: seller-only; total own-lead count plus per-month
buckets sorted descending, `to_list(12)`. -/
def get_leads_stats (db : DB) (current_user : UserRec) : Except HTTPError StatsResult :=
  if current_user.tipo ≠ "vendedor" then .error ⟨403, "Acesso negado"⟩
  else
    let mine := db.leads.filter (fun l => l.vendedor_id == current_user.id)
    .ok { total := mine.length,
          monthly := (sortPeriodsDesc (monthlyBuckets (mine.map (·.criado_em)))).take 12 }

/-- The filter query built by `get_all_leads` / `export_leads`: equality
constraints ANDed together; a missing parameter — and, by Python
truthiness (`if curso:`), an empty string — imposes no constraint. -/
def leadQueryMatches (curso statusFilter vendedor_id : Option String) (l : LeadRec) : Bool :=
  (match curso with
   | some c => if c == "" then true else l.curso == c
   | none => true) &&
  (match statusFilter with
   | some s => if s == "" then true else l.status == s
   | none => true) &&
  (match vendedor_id with
   | some v => if v == "" then true else l.vendedor_id == v
   | none => true)

/-- `get_all_leads`: coordinator/administrator; filtered leads capped at
5000. -/
def get_all_leads (db : DB) (curso statusFilter vendedor_id : Option String)
    (current_user : UserRec) : Except HTTPError (List LeadRec) :=
  if ¬ (current_user.tipo ∈ ["coordenador", "administrador"]) then
    .error ⟨403, "Acesso negado"⟩
  else .ok ((db.leads.filter (leadQueryMatches curso statusFilter vendedor_id)).take 5000)

/-- Request body of `PATCH /api/leads/{lead_id}` (`LeadUpdate` model): every
field optional. -/
structure LeadUpdate where
  status : Option String := none
  nome_completo : Option String := none
  telefone : Option String := none
  curso : Option String := none
  deriving DecidableEq, Repr

/-- The `$set` document of `update_lead`: the non-`None` fields of the
payload plus a fresh `atualizado_em`, merged into the stored record. -/
def applyLeadUpdate (upd : LeadUpdate) (now : String) (l : LeadRec) : LeadRec :=
  { l with
    status := upd.status.getD l.status,
    nome_completo := upd.nome_completo.getD l.nome_completo,
    telefone := upd.telefone.getD l.telefone,
    curso := upd.curso.getD l.curso,
    atualizado_em := now }

/-- `update_lead`: coordinator/administrator; 404 when the id is absent
(before any write); otherwise `$set`-merge the non-null fields and refresh
`atualizado_em`, write one UPDATE audit entry and return the re-fetched
record.  (The re-fetch cannot miss, since the merge preserves the id; a
miss would be an unhandled `None` access, i.e. a 500.) -/
def update_lead (db : DB) (lead_id : String) (lead_update : LeadUpdate)
    (current_user : UserRec) (now audit_id : String) : Except HTTPError (LeadRec × DB) :=
  if ¬ (current_user.tipo ∈ ["coordenador", "administrador"]) then
    .error ⟨403, "Acesso negado"⟩
  else
    match db.leads.find? (fun l => l.id == lead_id) with
    | none => .error ⟨404, "Lead não encontrado"⟩
    | some _ =>
      let db1 := { db with
        leads := updateFirst (fun l => l.id == lead_id)
          (applyLeadUpdate lead_update now) db.leads }
      let db2 := log_audit db1 current_user.id current_user.nome "UPDATE" "lead" lead_id
        (some "Lead atualizado") audit_id now
      match db2.leads.find? (fun l => l.id == lead_id) with
      | none => .error ⟨500, "Internal Server Error"⟩
      | some updated_lead => .ok (updated_lead, db2)

/-! ### Dashboard and reports -/

/-- One entry of the seller ranking produced by `get_dashboard`. -/
structure VendedorRank where
  vendedor_id : String
  vendedor_nome : String
  total_leads : Nat
  matriculados : Nat
  deriving DecidableEq, Repr

/-- Result shape of `get_dashboard`. -/
structure DashboardResult where
  total_leads : Nat
  status_distribution : List (String × Nat)
  curso_distribution : List (String × Nat)
  vendedor_ranking : List VendedorRank
  monthly_leads : List (String × Nat)
  deriving DecidableEq, Repr

/-- A `$group`/`$sum: 1` stage keyed by a string field: one `(key, count)`
pair per distinct key. -/
def groupCounts (keys : List String) : List (String × Nat) :=
  keys.dedup.map (fun k => (k, keys.countP (fun s => s == k)))

/-- `{"$sort": {"count": -1}}` on `(key, count)` groups. -/
def sortCountDesc (l : List (String × Nat)) : List (String × Nat) :=
  List.insertionSort (fun a b => b.2 ≤ a.2) l

/-- `{"$sort": {"_id": 1}}` on `(key, count)` groups. -/
def sortPeriodsAsc (l : List (String × Nat)) : List (String × Nat) :=
  List.insertionSort (fun a b => strLe a.1 b.1) l

/-- The seller-ranking `$group` stage: per `vendedor_id`, the first
`vendedor_nome` encountered, the lead count, and the count of leads with
status `"Matriculado"`. -/
def vendedorGroup (leads : List LeadRec) : List VendedorRank :=
  ((leads.map (·.vendedor_id)).dedup).map (fun v =>
    { vendedor_id := v,
      vendedor_nome := ((leads.find? (fun l => l.vendedor_id == v)).map (·.vendedor_nome)).getD "",
      total_leads := leads.countP (fun l => l.vendedor_id == v),
      matriculados := leads.countP (fun l => l.vendedor_id == v && l.status == "Matriculado") })

/-- `get_dashboard`: coordinator/administrator; the four aggregations of
the dashboard endpoint. -/
def get_dashboard (db : DB) (current_user : UserRec) : Except HTTPError DashboardResult :=
  if ¬ (current_user.tipo ∈ ["coordenador", "administrador"]) then
    .error ⟨403, "Acesso negado"⟩
  else
    .ok { total_leads := db.leads.length,
          status_distribution := (groupCounts (db.leads.map (·.status))).take 100,
          curso_distribution := (sortCountDesc (groupCounts (db.leads.map (·.curso)))).take 5,
          vendedor_ranking :=
            (List.insertionSort (fun a b : VendedorRank => b.total_leads ≤ a.total_leads)
              (vendedorGroup db.leads)).take 100,
          monthly_leads := (sortPeriodsAsc (monthlyBuckets (db.leads.map (·.criado_em)))).take 12 }

/-- The binary payload produced by `export_leads`. -/
inductive ExportFile where
  | csv (bom : Bool) (rows : List LeadRec) (filename : String)
  | excel (sheet : String) (rows : List LeadRec) (filename : String)
  deriving DecidableEq, Repr

/-- `export_leads`: coordinator/administrator; filter (cap 10000), then —
in this order — 404 on an empty result set, CSV (UTF-8 with BOM), Excel
(one sheet `"Leads"`), and only then 400 for an unsupported format. -/
def export_leads (db : DB) (format : String) (curso statusFilter vendedor_id : Option String)
    (current_user : UserRec) : Except HTTPError ExportFile :=
  if ¬ (current_user.tipo ∈ ["coordenador", "administrador"]) then
    .error ⟨403, "Acesso negado"⟩
  else
    let leads := (db.leads.filter (leadQueryMatches curso statusFilter vendedor_id)).take 10000
    if leads.isEmpty then .error ⟨404, "Nenhum lead encontrado"⟩
    else if format == "csv" then .ok (.csv true leads "leads.csv")
    else if format == "excel" then .ok (.excel "Leads" leads "leads.xlsx")
    else .error ⟨400, "Formato não suportado"⟩

/-! ### User management endpoints -/

/-- `get_users`: administrator-only; all users, `senha_hash` projected
away, capped at 1000. -/
def get_users (db : DB) (current_user : UserRec) :
    Except HTTPError (List (List (String × Value))) :=
  if current_user.tipo ≠ "administrador" then .error ⟨403, "Acesso negado"⟩
  else .ok ((db.users.take 1000).map (fun u => stripSenhaHash (userDocFields u)))

/-- Request body of `POST /api/users` (`UserCreate` model). -/
structure UserCreate where
  email : String
  nome : String
  tipo : String
  senha : String
  deriving DecidableEq, Repr

/-- `create_user`: administrator-only; 400 on a duplicate email, otherwise
insert the new user (active, password hashed with a fresh salt) and write
one CREATE audit entry. -/
def create_user (db : DB) (user_data : UserCreate) (current_user : UserRec)
    (salt user_id now audit_id : String) : Except HTTPError (UserRec × DB) :=
  if current_user.tipo ≠ "administrador" then .error ⟨403, "Acesso negado"⟩
  else
    match db.users.find? (fun u => u.email == user_data.email) with
    | some _ => .error ⟨400, "Email já cadastrado"⟩
    | none =>
      let user : UserRec :=
        { id := user_id, email := user_data.email, nome := user_data.nome,
          tipo := user_data.tipo, ativo := true,
          senha_hash := hash_password user_data.senha salt, criado_em := now }
      let db1 := { db with users := db.users ++ [user] }
      let db2 := log_audit db1 current_user.id current_user.nome "CREATE" "user" user.id
        (some ("Usuário criado: " ++ user.email)) audit_id now
      .ok (user, db2)

/-- The `updates.pop('senha')` preprocessing of `update_user`: a supplied
plaintext `senha` is removed and replaced by a freshly salted
`senha_hash` appended to the update map. -/
def prepareUserUpdates (updates : List (String × Value)) (salt : String) :
    List (String × Value) :=
  match updates.find? (fun kv => kv.1 == "senha") with
  | some (_, .str s) =>
      (updates.filter (fun kv => kv.1 ≠ "senha")) ++
        [("senha_hash", .str (hash_password s salt))]
  | _ => updates

/-- The unconstrained `$set` of `update_user` applied to a stored user:
each known field named in the map is overwritten by a value of its type;
keys outside the user schema would be stored as extra document fields that
no reader of this backend ever consults, so the model drops them. -/
def applyUserSet (u : UserRec) : List (String × Value) → UserRec
  | [] => u
  | ("email", .str v) :: rest => applyUserSet { u with email := v } rest
  | ("nome", .str v) :: rest => applyUserSet { u with nome := v } rest
  | ("tipo", .str v) :: rest => applyUserSet { u with tipo := v } rest
  | ("ativo", .bool v) :: rest => applyUserSet { u with ativo := v } rest
  | ("senha_hash", .str v) :: rest => applyUserSet { u with senha_hash := v } rest
  | ("criado_em", .str v) :: rest => applyUserSet { u with criado_em := v } rest
  | ("id", .str v) :: rest => applyUserSet { u with id := v } rest
  | _ :: rest => applyUserSet u rest

/-- `update_user`: administrator-only; 404 when the id is absent; otherwise
apply the arbitrary-key `$set` (hashing a supplied `senha`), write one
UPDATE audit entry and return the re-fetched record without `senha_hash`.
(A `$set` that rewrites `id` makes the re-fetch by the old id miss, which
would be an unhandled `None` access, i.e. a 500.) -/
def update_user (db : DB) (user_id : String) (updates : List (String × Value))
    (current_user : UserRec) (salt now audit_id : String) :
    Except HTTPError ((List (String × Value)) × DB) :=
  if current_user.tipo ≠ "administrador" then .error ⟨403, "Acesso negado"⟩
  else
    match db.users.find? (fun u => u.id == user_id) with
    | none => .error ⟨404, "Usuário não encontrado"⟩
    | some _ =>
      let upd := prepareUserUpdates updates salt
      let db1 := { db with
        users := updateFirst (fun u => u.id == user_id) (fun u => applyUserSet u upd) db.users }
      let db2 := log_audit db1 current_user.id current_user.nome "UPDATE" "user" user_id
        (some "Usuário atualizado") audit_id now
      match db2.users.find? (fun u => u.id == user_id) with
      | none => .error ⟨500, "Internal Server Error"⟩
      | some updated_user => .ok (stripSenhaHash (userDocFields updated_user), db2)

/-! ### Course, status, audit-log and backup endpoints -/

/-- `get_courses`: public (no credential); active courses, capped at 100. -/
def get_courses (db : DB) : Except HTTPError (List CourseRec) :=
  .ok ((db.courses.filter (·.ativo)).take 100)

/-- `create_course`: administrator-only; insert the course and write one
CREATE audit entry. -/
def create_course (db : DB) (course : CourseRec) (current_user : UserRec)
    (audit_id now : String) : Except HTTPError (CourseRec × DB) :=
  if current_user.tipo ≠ "administrador" then .error ⟨403, "Acesso negado"⟩
  else
    let db1 := { db with courses := db.courses ++ [course] }
    let db2 := log_audit db1 current_user.id current_user.nome "CREATE" "course" course.id
      (some ("Curso criado: " ++ course.nome)) audit_id now
    .ok (course, db2)

/-- `get_lead_status`: public (no credential); all statuses, capped at 100. -/
def get_lead_status (db : DB) : Except HTTPError (List StatusRec) :=
  .ok (db.lead_status.take 100)

/-- `create_lead_status`: administrator-only; insert the status and write
one CREATE audit entry. -/
def create_lead_status (db : DB) (lead_status : StatusRec) (current_user : UserRec)
    (audit_id now : String) : Except HTTPError (StatusRec × DB) :=
  if current_user.tipo ≠ "administrador" then .error ⟨403, "Acesso negado"⟩
  else
    let db1 := { db with lead_status := db.lead_status ++ [lead_status] }
    let db2 := log_audit db1 current_user.id current_user.nome "CREATE" "lead_status"
      lead_status.id (some ("Status criado: " ++ lead_status.nome)) audit_id now
    .ok (lead_status, db2)

/-- `get_audit_logs`: administrator-only; logs sorted by `criado_em`
descending, capped at `limit`. -/
def get_audit_logs (db : DB) (limit : Nat) (current_user : UserRec) :
    Except HTTPError (List AuditRec) :=
  if current_user.tipo ≠ "administrador" then .error ⟨403, "Acesso negado"⟩
  else
    .ok ((List.insertionSort (fun a b : AuditRec => strLe b.criado_em a.criado_em)
      db.audit_logs).take limit)

/-- The four-sheet workbook produced by `backup_system`. -/
structure BackupFile where
  usuarios : List (List (String × Value))
  leads_sheet : List LeadRec
  cursos : List CourseRec
  status_sheet : List StatusRec
  filename : String
  deriving DecidableEq, Repr

/-- `backup_system`: administrator-only; dump users (without
`senha_hash`), leads, courses and statuses (10000 each) into a workbook
and write one BACKUP audit entry. -/
def backup_system (db : DB) (current_user : UserRec) (audit_id now : String) :
    Except HTTPError (BackupFile × DB) :=
  if current_user.tipo ≠ "administrador" then .error ⟨403, "Acesso negado"⟩
  else
    let db2 := log_audit db current_user.id current_user.nome "BACKUP" "system" "full"
      (some "Backup completo realizado") audit_id now
    .ok ({ usuarios := (db.users.take 10000).map (fun u => stripSenhaHash (userDocFields u)),
           leads_sheet := db.leads.take 10000,
           cursos := db.courses.take 10000,
           status_sheet := db.lead_status.take 10000,
           filename := "backup_uninorte.xlsx" }, db2)

/-! ### Concrete fixtures (used by witnesses and counterexamples) -/

/-- A demo seller account. -/
def vendUser : UserRec :=
  { id := "u-vend", email := "vendedor@lead.com.br", nome := "Vendedor Demo",
    tipo := "vendedor", ativo := true,
    senha_hash := hash_password "vendedor123" "saltV",
    criado_em := "2024-01-01T00:00:00+00:00" }

/-- A demo coordinator account. -/
def coordUser : UserRec :=
  { id := "u-coord", email := "coordenador@lead.com.br", nome := "Coordenador Demo",
    tipo := "coordenador", ativo := true,
    senha_hash := hash_password "coordenador123" "saltC",
    criado_em := "2024-01-01T00:00:00+00:00" }

/-- A demo administrator account. -/
def admUser : UserRec :=
  { id := "u-adm", email := "adm@lead.com.br", nome := "DANIEL Souza",
    tipo := "administrador", ativo := true,
    senha_hash := hash_password "adm123" "saltA",
    criado_em := "2024-01-01T00:00:00+00:00" }

/-- A deactivated seller account. -/
def inactiveVend : UserRec :=
  { vendUser with id := "u-vend2", email := "inativo@lead.com.br", ativo := false }

/-- Demo lead created 2024-01-05. -/
def leadJan5 : LeadRec :=
  { id := "l-1", nome_completo := "Maria Silva Santos", telefone := "(84) 98765-4321",
    curso := "Enfermagem", status := "Novo", vendedor_id := "u-vend",
    vendedor_nome := "Vendedor Demo",
    criado_em := "2024-01-05T10:00:00+00:00", atualizado_em := "2024-01-05T10:00:00+00:00" }

/-- Demo lead created 2024-01-20. -/
def leadJan20 : LeadRec :=
  { leadJan5 with
    id := "l-2", nome_completo := "João Pedro Costa",
    curso := "Direito", status := "Em negociação",
    criado_em := "2024-01-20T08:30:00+00:00", atualizado_em := "2024-01-20T08:30:00+00:00" }

/-- Demo lead created 2024-02-01. -/
def leadFeb1 : LeadRec :=
  { leadJan5 with
    id := "l-3", nome_completo := "Ana Carolina Oliveira",
    curso := "Psicologia", status := "Matriculado",
    criado_em := "2024-02-01T09:00:00+00:00", atualizado_em := "2024-02-01T09:00:00+00:00" }

/-- A small populated store. -/
def demoDB : DB :=
  { users := [vendUser, coordUser, admUser, inactiveVend],
    leads := [leadJan5, leadJan20, leadFeb1],
    courses := [{ id := "c-1", nome := "Enfermagem", ativo := true }],
    lead_status := [{ id := "s-1", nome := "Novo", cor := "#3B82F6" }],
    audit_logs := [] }

/-- A store with no leads at all. -/
def emptyLeadsDB : DB := { demoDB with leads := [] }

/-- A concrete lead-creation payload. -/
def novoAlunoPayload : LeadCreate :=
  { nome_completo := "Novo Aluno", telefone := "(84) 90000-0000", curso := "Direito" }

/-- The raw JSON body of `novoAlunoPayload`. -/
def novoAlunoBody : List (String × Value) :=
  [("nome_completo", .str "Novo Aluno"), ("telefone", .str "(84) 90000-0000"),
   ("curso", .str "Direito")]

/-! ## Helper lemmas -/

/-- Case analysis of the modelled `bcrypt.checkpw`: either the stored hash
has bcrypt shape and the call returns the digest comparison, or it raises
`ValueError("Invalid salt")`. -/
theorem bcrypt_checkpw_cases (password hashed : String) :
    (∃ salt digest, dollarParts hashed = ["", "2b", "12", salt, digest] ∧
       bcrypt_checkpw password hashed = .ok (digest == password)) ∨
    ((∀ salt digest, dollarParts hashed ≠ ["", "2b", "12", salt, digest]) ∧
       bcrypt_checkpw password hashed = .error "Invalid salt") := by
  unfold bcrypt_checkpw
  split
  · next salt digest heq => exact .inl ⟨salt, digest, heq, rfl⟩
  · next h => exact .inr ⟨fun salt digest heq => h salt digest heq, rfl⟩

/-- `updateFirst` rewrites exactly the record `find?` locates, provided the
rewrite preserves the search predicate. -/
theorem updateFirst_find?_eq {α} (p : α → Bool) (f : α → α) (l : List α) (a : α)
    (h : l.find? p = some a) (hpres : ∀ x, p x = true → p (f x) = true) :
    (updateFirst p f l).find? p = some (f a) := by
  induction l with
  | nil => simp at h
  | cons x xs ih =>
    by_cases hx : p x = true
    · rw [List.find?_cons_of_pos _ hx] at h
      injection h with h
      subst h
      unfold updateFirst
      rw [if_pos hx]
      exact List.find?_cons_of_pos _ (hpres _ hx)
    · rw [List.find?_cons_of_neg _ hx] at h
      unfold updateFirst
      rw [if_neg hx, List.find?_cons_of_neg _ hx]
      exact ih h

/-- Records the search predicate rejects are untouched by `updateFirst`. -/
theorem mem_updateFirst_of_neg {α} (p : α → Bool) (f : α → α) (l : List α) (x : α)
    (hx : x ∈ l) (hpx : p x = false) : x ∈ updateFirst p f l := by
  induction l with
  | nil => cases hx
  | cons y ys ih =>
    unfold updateFirst
    rcases List.mem_cons.mp hx with rfl | hmem
    · rw [if_neg (by simp [hpx])]
      exact List.mem_cons_self _ _
    · by_cases hy : p y = true
      · rw [if_pos hy]
        exact List.mem_cons_of_mem _ hmem
      · rw [if_neg hy]
        exact List.mem_cons_of_mem _ (ih hmem)

/-! ## C8 -/

/-- C8, counterexample: the claim says `verify(password, hash)` never
throws and returns `false` on a malformed hash; in fact a malformed hash
(here the empty string) makes the underlying `bcrypt.checkpw` raise
`ValueError("Invalid salt")`, which `verify_password` does not catch. -/
theorem verify_password_raises_on_malformed :
    verify_password "senha" "" = .error "Invalid salt" := rfl

/-- C8 (amended): `verify_password` returns a boolean exactly on
bcrypt-shaped hashes; on a malformed hash it propagates the library's
`ValueError` instead of returning `false`. -/
theorem verify_password_wellformed_total (password hashed : String) :
    ((∃ salt digest, dollarParts hashed = ["", "2b", "12", salt, digest]) →
       ∃ b : Bool, verify_password password hashed = .ok b) ∧
    ((∀ salt digest, dollarParts hashed ≠ ["", "2b", "12", salt, digest]) →
       verify_password password hashed = .error "Invalid salt") := by
  constructor
  · rintro ⟨salt, digest, heq⟩
    rcases bcrypt_checkpw_cases password hashed with ⟨s, d, _, hok⟩ | ⟨hno, _⟩
    · exact ⟨d == password, hok⟩
    · exact absurd heq (hno salt digest)
  · intro h
    rcases bcrypt_checkpw_cases password hashed with ⟨s, d, heq, _⟩ | ⟨_, he⟩
    · exact absurd heq (h s d)
    · exact he

/-- C8 witness. -/
theorem verify_password_wellformed_total_witness :
    ∃ b : Bool, verify_password "senha" "$2b$12$saltS$senha" = .ok b :=
  (verify_password_wellformed_total "senha" "$2b$12$saltS$senha").1
    ⟨"saltS", "senha", rfl⟩

/-! ## C2 -/

/-- C2: a login attempt with a non-existent email and one with an existing
email but wrong password produce the identical error (same message, same
status code 401), while correct credentials for a deactivated account
produce a distinct failure (403, different message). -/
theorem login_error_uniformity (db : DB) (now : Nat) (e1 p1 e2 p2 e3 p3 : String) :
    (db.users.find? (fun x => x.email == e1) = none →
       login db { email := e1, senha := p1 } now =
         .error ⟨401, "Email ou senha incorretos"⟩) ∧
    (∀ u, db.users.find? (fun x => x.email == e2) = some u →
       verify_password p2 u.senha_hash = .ok false →
       login db { email := e2, senha := p2 } now =
         .error ⟨401, "Email ou senha incorretos"⟩) ∧
    (∀ u, db.users.find? (fun x => x.email == e3) = some u →
       verify_password p3 u.senha_hash = .ok true → u.ativo = false →
       login db { email := e3, senha := p3 } now =
         .error ⟨403, "Usuário desativado"⟩) ∧
    ((403 : Nat) ≠ 401 ∧ "Usuário desativado" ≠ "Email ou senha incorretos") := by
  refine ⟨?_, ?_, ?_, by decide, by decide⟩
  · intro h
    unfold login
    simp only [h]
  · intro u hu hv
    unfold login
    simp only [hu, verify_password] at *
    simp [hu, hv, verify_password]
  · intro u hu hv hatv
    unfold login verify_password
    simp only [verify_password] at hv
    simp [hu, hv, hatv]

/-- C2 witness. -/
theorem login_error_uniformity_witness :
    login demoDB { email := "nobody@lead.com.br", senha := "x" } 0 =
        .error ⟨401, "Email ou senha incorretos"⟩ ∧
    login demoDB { email := "vendedor@lead.com.br", senha := "bad" } 0 =
        .error ⟨401, "Email ou senha incorretos"⟩ ∧
    login demoDB { email := "inativo@lead.com.br", senha := "vendedor123" } 0 =
        .error ⟨403, "Usuário desativado"⟩ :=
  ⟨(login_error_uniformity demoDB 0 "nobody@lead.com.br" "x" "" "" "" "").1 rfl,
   (login_error_uniformity demoDB 0 "" "" "vendedor@lead.com.br" "bad" "" "").2.1
     vendUser rfl rfl,
   (login_error_uniformity demoDB 0 "" "" "" "" "inativo@lead.com.br" "vendedor123").2.2.1
     inactiveVend rfl rfl rfl⟩

/-! ## C3 -/

/-- C3: a lead created by an authenticated seller carries the seller's id
and name as owner (the raw body's own `vendedor_id`/`vendedor_nome`, if
any, are dropped by validation), default status `"Novo"`, and
`criado_em = atualizado_em = now`. -/
theorem create_lead_stamps (db : DB) (body : List (String × Value)) (d : LeadCreate)
    (u : UserRec) (lead_id now audit_id : String) :
    u.tipo = "vendedor" →
    parseLeadCreate body = some d →
    ∃ lead db2, create_lead db d u lead_id now audit_id = .ok (lead, db2) ∧
      lead.vendedor_id = u.id ∧ lead.vendedor_nome = u.nome ∧
      lead.status = "Novo" ∧
      lead.criado_em = now ∧ lead.atualizado_em = now ∧
      lead.criado_em = lead.atualizado_em ∧
      lead.nome_completo = d.nome_completo ∧ lead.telefone = d.telefone ∧
      lead.curso = d.curso ∧
      db2.leads = db.leads ++ [lead] ∧
      (∀ w, parseLeadCreate (("vendedor_id", w) :: body) = some d) ∧
      (∀ w, parseLeadCreate (("vendedor_nome", w) :: body) = some d) := by
  intro ht hp
  have hgate : ¬ (u.tipo ≠ "vendedor") := by simp [ht]
  unfold create_lead
  rw [if_neg hgate]
  exact ⟨_, _, rfl, rfl, rfl, rfl, rfl, rfl, rfl, rfl, rfl, rfl, rfl,
    fun w => by rw [← hp]; unfold parseLeadCreate lookupField; simp [List.find?],
    fun w => by rw [← hp]; unfold parseLeadCreate lookupField; simp [List.find?]⟩

/-- C3 witness. -/
theorem create_lead_stamps_witness :
    ∃ lead db2,
      create_lead demoDB novoAlunoPayload vendUser "l-9" "2024-03-05T10:00:00+00:00" "a-9" =
        .ok (lead, db2) ∧
      lead.vendedor_id = vendUser.id ∧ lead.vendedor_nome = vendUser.nome ∧
      lead.status = "Novo" ∧
      lead.criado_em = "2024-03-05T10:00:00+00:00" ∧
      lead.atualizado_em = "2024-03-05T10:00:00+00:00" ∧
      lead.criado_em = lead.atualizado_em ∧
      lead.nome_completo = novoAlunoPayload.nome_completo ∧
      lead.telefone = novoAlunoPayload.telefone ∧
      lead.curso = novoAlunoPayload.curso ∧
      db2.leads = demoDB.leads ++ [lead] ∧
      (∀ w, parseLeadCreate (("vendedor_id", w) :: novoAlunoBody) = some novoAlunoPayload) ∧
      (∀ w, parseLeadCreate (("vendedor_nome", w) :: novoAlunoBody) = some novoAlunoPayload) :=
  create_lead_stamps demoDB novoAlunoBody novoAlunoPayload vendUser
    "l-9" "2024-03-05T10:00:00+00:00" "a-9" rfl rfl

/-! ## C4 -/

/-- C4: for an existing lead, `update_lead` merges exactly the non-null
payload fields, refreshes `atualizado_em` to the (monotone) current
instant — hence to a value `≥` the previous one —, leaves `id`,
`vendedor_id`, `vendedor_nome`, `criado_em` and every unsupplied field
unchanged, and touches no other lead; for an absent id it fails with 404
before any write (an error result carries no new store). -/
theorem update_lead_merge_frame (db : DB) (lead_id : String) (upd : LeadUpdate)
    (u : UserRec) (now audit_id : String) :
    u.tipo ∈ ["coordenador", "administrador"] →
    (∀ prev, db.leads.find? (fun l => l.id == lead_id) = some prev →
       strLe prev.atualizado_em now →
       ∃ db2, update_lead db lead_id upd u now audit_id =
           .ok (applyLeadUpdate upd now prev, db2) ∧
         (applyLeadUpdate upd now prev).id = prev.id ∧
         (applyLeadUpdate upd now prev).vendedor_id = prev.vendedor_id ∧
         (applyLeadUpdate upd now prev).vendedor_nome = prev.vendedor_nome ∧
         (applyLeadUpdate upd now prev).criado_em = prev.criado_em ∧
         (applyLeadUpdate upd now prev).atualizado_em = now ∧
         strLe prev.atualizado_em (applyLeadUpdate upd now prev).atualizado_em ∧
         (upd.status = none → (applyLeadUpdate upd now prev).status = prev.status) ∧
         (∀ s, upd.status = some s → (applyLeadUpdate upd now prev).status = s) ∧
         (upd.nome_completo = none →
            (applyLeadUpdate upd now prev).nome_completo = prev.nome_completo) ∧
         (∀ s, upd.nome_completo = some s → (applyLeadUpdate upd now prev).nome_completo = s) ∧
         (upd.telefone = none → (applyLeadUpdate upd now prev).telefone = prev.telefone) ∧
         (∀ s, upd.telefone = some s → (applyLeadUpdate upd now prev).telefone = s) ∧
         (upd.curso = none → (applyLeadUpdate upd now prev).curso = prev.curso) ∧
         (∀ s, upd.curso = some s → (applyLeadUpdate upd now prev).curso = s) ∧
         db2.leads = updateFirst (fun l => l.id == lead_id) (applyLeadUpdate upd now) db.leads ∧
         (∀ l ∈ db.leads, (l.id == lead_id) = false → l ∈ db2.leads)) ∧
    (db.leads.find? (fun l => l.id == lead_id) = none →
       update_lead db lead_id upd u now audit_id = .error ⟨404, "Lead não encontrado"⟩) := by
  intro hrole
  constructor
  · intro prev hfind hle
    have hfind2 : (updateFirst (fun l => l.id == lead_id)
        (applyLeadUpdate upd now) db.leads).find? (fun l => l.id == lead_id) =
        some (applyLeadUpdate upd now prev) :=
      updateFirst_find?_eq _ _ _ _ hfind (fun x hx => hx)
    unfold update_lead
    rw [if_neg (not_not_intro hrole)]
    rw [hfind]
    simp only [log_audit]
    rw [hfind2]
    refine ⟨_, rfl, rfl, rfl, rfl, rfl, rfl, hle, ?_, ?_, ?_, ?_, ?_, ?_, ?_, ?_, rfl, ?_⟩
    · intro h; simp [applyLeadUpdate, h]
    · intro s h; simp [applyLeadUpdate, h]
    · intro h; simp [applyLeadUpdate, h]
    · intro s h; simp [applyLeadUpdate, h]
    · intro h; simp [applyLeadUpdate, h]
    · intro s h; simp [applyLeadUpdate, h]
    · intro h; simp [applyLeadUpdate, h]
    · intro s h; simp [applyLeadUpdate, h]
    · exact fun l hl hne => mem_updateFirst_of_neg _ _ _ _ hl hne
  · intro hnone
    unfold update_lead
    rw [if_neg (not_not_intro hrole), hnone]

/-- C4 witness. -/
theorem update_lead_merge_frame_witness :
    (∃ db2, update_lead demoDB "l-1" { status := some "Matriculado" } coordUser
        "2024-03-02T00:00:00+00:00" "a-7" =
        .ok (applyLeadUpdate { status := some "Matriculado" }
          "2024-03-02T00:00:00+00:00" leadJan5, db2)) ∧
    update_lead demoDB "l-missing" { status := some "Matriculado" } coordUser
        "2024-03-02T00:00:00+00:00" "a-7" = .error ⟨404, "Lead não encontrado"⟩ := by
  have h := update_lead_merge_frame demoDB "l-1" { status := some "Matriculado" }
    coordUser "2024-03-02T00:00:00+00:00" "a-7" (by decide)
  have h2 := update_lead_merge_frame demoDB "l-missing" { status := some "Matriculado" }
    coordUser "2024-03-02T00:00:00+00:00" "a-7" (by decide)
  obtain ⟨db2, heq, -⟩ := h.1 leadJan5 (by decide) (by decide)
  exact ⟨⟨db2, heq⟩, h2.2 (by decide)⟩

/-! ## C7 -/

/-- C7 counterexample: an authorized coordinator calling
`export("pdf", {})` on a store whose filtered lead set is empty gets 404
(NotFound) — not 400 (InvalidArgument) as the claim requires for every
unsupported-format request: the emptiness check runs first. -/
theorem export_pdf_counterexample :
    coordUser.tipo = "coordenador" ∧
    export_leads emptyLeadsDB "pdf" none none none coordUser =
      .error ⟨404, "Nenhum lead encontrado"⟩ ∧
    (404 : Nat) ≠ 400 := ⟨rfl, rfl, by decide⟩

/-- C7 (amended): for an authorized caller the emptiness check runs
first — an empty filtered set fails with 404 (NotFound) regardless of the
format, even an unsupported one; on a nonempty filtered set an
unsupported format (e.g. `"pdf"`) fails with 400 (InvalidArgument) and the
supported formats succeed. -/
theorem export_error_order (db : DB) (format : String) (c s v : Option String)
    (u : UserRec) :
    u.tipo ∈ ["coordenador", "administrador"] →
    ((db.leads.filter (leadQueryMatches c s v)).take 10000 = [] →
       export_leads db format c s v u = .error ⟨404, "Nenhum lead encontrado"⟩) ∧
    (∀ l ls, (db.leads.filter (leadQueryMatches c s v)).take 10000 = l :: ls →
       format ≠ "csv" → format ≠ "excel" →
       export_leads db format c s v u = .error ⟨400, "Formato não suportado"⟩) ∧
    (∀ l ls, (db.leads.filter (leadQueryMatches c s v)).take 10000 = l :: ls →
       format = "csv" →
       export_leads db format c s v u = .ok (.csv true (l :: ls) "leads.csv")) ∧
    (∀ l ls, (db.leads.filter (leadQueryMatches c s v)).take 10000 = l :: ls →
       format = "excel" →
       export_leads db format c s v u = .ok (.excel "Leads" (l :: ls) "leads.xlsx")) := by
  intro hrole
  refine ⟨?_, ?_, ?_, ?_⟩
  · intro h
    unfold export_leads
    rw [if_neg (not_not_intro hrole)]
    simp [h]
  · intro l ls h hcsv hxl
    unfold export_leads
    rw [if_neg (not_not_intro hrole)]
    simp [h, hcsv, hxl]
  · intro l ls h hcsv
    unfold export_leads
    rw [if_neg (not_not_intro hrole)]
    simp [h, hcsv]
  · intro l ls h hxl
    unfold export_leads
    rw [if_neg (not_not_intro hrole)]
    simp [h, hxl]

/-- C7 witness. -/
theorem export_error_order_witness :
    export_leads emptyLeadsDB "csv" none none none coordUser =
      .error ⟨404, "Nenhum lead encontrado"⟩ ∧
    export_leads demoDB "pdf" none none none coordUser =
      .error ⟨400, "Formato não suportado"⟩ ∧
    export_leads demoDB "csv" none none none coordUser =
      .ok (.csv true [leadJan5, leadJan20, leadFeb1] "leads.csv") ∧
    export_leads demoDB "excel" none none none coordUser =
      .ok (.excel "Leads" [leadJan5, leadJan20, leadFeb1] "leads.xlsx") := by
  have h1 := export_error_order emptyLeadsDB "csv" none none none coordUser (by decide)
  have h2 := export_error_order demoDB "pdf" none none none coordUser (by decide)
  refine ⟨h1.1 (by decide), h2.2.1 leadJan5 [leadJan20, leadFeb1] (by decide)
    (by decide) (by decide), ?_, ?_⟩
  · exact (export_error_order demoDB "csv" none none none coordUser (by decide)).2.2.1
      leadJan5 [leadJan20, leadFeb1] (by decide) rfl
  · exact (export_error_order demoDB "excel" none none none coordUser (by decide)).2.2.2
      leadJan5 [leadJan20, leadFeb1] (by decide) rfl

/-! ## C1 -/

/-- C1 counterexample: the claim's table allows backup for a coordinator,
but the backup endpoint denies a coordinator with 403 Forbidden. -/
theorem backup_coordinator_forbidden :
    coordUser.tipo = "coordenador" ∧
    backup_system demoDB coordUser "a-1" "2024-03-01T00:00:00+00:00" =
      .error ⟨403, "Acesso negado"⟩ := ⟨rfl, rfl⟩

/-- C1 (amended): the role gates match the claimed table except that
backup is administrator-only: create lead and list-own/own-stats succeed
only for a seller; list-all, dashboard and export only for a coordinator
or administrator; update lead only for a coordinator or administrator;
list/create/update users, create course, create lead-status, list
audit-logs and backup only for an administrator; list courses and list
lead-status take no credential and never fail; every role violation is a
403 Forbidden, distinct from the 401 used for Unauthenticated. -/
theorem role_gates_match_amended_table :
    (∀ db d (u : UserRec) lid now aid,
       (u.tipo = "vendedor" → ∀ e, create_lead db d u lid now aid ≠ .error e) ∧
       (u.tipo ≠ "vendedor" →
          create_lead db d u lid now aid =
            .error ⟨403, "Apenas vendedores podem criar leads"⟩)) ∧
    (∀ db (u : UserRec),
       (u.tipo = "vendedor" → ∀ e, get_my_leads db u ≠ .error e) ∧
       (u.tipo ≠ "vendedor" → get_my_leads db u = .error ⟨403, "Acesso negado"⟩)) ∧
    (∀ db (u : UserRec),
       (u.tipo = "vendedor" → ∀ e, get_leads_stats db u ≠ .error e) ∧
       (u.tipo ≠ "vendedor" → get_leads_stats db u = .error ⟨403, "Acesso negado"⟩)) ∧
    (∀ db c s v (u : UserRec),
       (u.tipo ∈ ["coordenador", "administrador"] →
          ∀ e, get_all_leads db c s v u ≠ .error e) ∧
       (u.tipo ∉ ["coordenador", "administrador"] →
          get_all_leads db c s v u = .error ⟨403, "Acesso negado"⟩)) ∧
    (∀ db (u : UserRec),
       (u.tipo ∈ ["coordenador", "administrador"] → ∀ e, get_dashboard db u ≠ .error e) ∧
       (u.tipo ∉ ["coordenador", "administrador"] →
          get_dashboard db u = .error ⟨403, "Acesso negado"⟩)) ∧
    (∀ db f c s v (u : UserRec),
       (u.tipo ∈ ["coordenador", "administrador"] →
          ∀ e, export_leads db f c s v u = .error e →
            e.status_code ≠ 403 ∧ e.status_code ≠ 401) ∧
       (u.tipo ∉ ["coordenador", "administrador"] →
          export_leads db f c s v u = .error ⟨403, "Acesso negado"⟩)) ∧
    (∀ db lid upd (u : UserRec) now aid,
       (u.tipo ∈ ["coordenador", "administrador"] →
          ∀ e, update_lead db lid upd u now aid = .error e →
            e.status_code ≠ 403 ∧ e.status_code ≠ 401) ∧
       (u.tipo ∉ ["coordenador", "administrador"] →
          update_lead db lid upd u now aid = .error ⟨403, "Acesso negado"⟩)) ∧
    (∀ db (u : UserRec),
       (u.tipo = "administrador" → ∀ e, get_users db u ≠ .error e) ∧
       (u.tipo ≠ "administrador" → get_users db u = .error ⟨403, "Acesso negado"⟩)) ∧
    (∀ db d (u : UserRec) salt uid now aid,
       (u.tipo = "administrador" →
          ∀ e, create_user db d u salt uid now aid = .error e →
            e.status_code ≠ 403 ∧ e.status_code ≠ 401) ∧
       (u.tipo ≠ "administrador" →
          create_user db d u salt uid now aid = .error ⟨403, "Acesso negado"⟩)) ∧
    (∀ db uid upds (u : UserRec) salt now aid,
       (u.tipo = "administrador" →
          ∀ e, update_user db uid upds u salt now aid = .error e →
            e.status_code ≠ 403 ∧ e.status_code ≠ 401) ∧
       (u.tipo ≠ "administrador" →
          update_user db uid upds u salt now aid = .error ⟨403, "Acesso negado"⟩)) ∧
    (∀ db course (u : UserRec) aid now,
       (u.tipo = "administrador" → ∀ e, create_course db course u aid now ≠ .error e) ∧
       (u.tipo ≠ "administrador" →
          create_course db course u aid now = .error ⟨403, "Acesso negado"⟩)) ∧
    (∀ db st (u : UserRec) aid now,
       (u.tipo = "administrador" → ∀ e, create_lead_status db st u aid now ≠ .error e) ∧
       (u.tipo ≠ "administrador" →
          create_lead_status db st u aid now = .error ⟨403, "Acesso negado"⟩)) ∧
    (∀ db lim (u : UserRec),
       (u.tipo = "administrador" → ∀ e, get_audit_logs db lim u ≠ .error e) ∧
       (u.tipo ≠ "administrador" → get_audit_logs db lim u = .error ⟨403, "Acesso negado"⟩)) ∧
    (∀ db (u : UserRec) aid now,
       (u.tipo = "administrador" → ∀ e, backup_system db u aid now ≠ .error e) ∧
       (u.tipo ≠ "administrador" → backup_system db u aid now = .error ⟨403, "Acesso negado"⟩)) ∧
    (∀ db, ∃ r, get_courses db = .ok r) ∧
    (∀ db, ∃ r, get_lead_status db = .ok r) ∧
    (403 : Nat) ≠ 401 := by
  refine ⟨?_, ?_, ?_, ?_, ?_, ?_, ?_, ?_, ?_, ?_, ?_, ?_, ?_, ?_, ?_, ?_, by decide⟩
  · intro db d u lid now aid
    refine ⟨fun ht e => ?_, fun ht => ?_⟩
    · unfold create_lead
      rw [if_neg (not_not_intro ht)]
      simp
    · unfold create_lead
      rw [if_pos ht]
  · intro db u
    refine ⟨fun ht e => ?_, fun ht => ?_⟩
    · unfold get_my_leads
      rw [if_neg (not_not_intro ht)]
      simp
    · unfold get_my_leads
      rw [if_pos ht]
  · intro db u
    refine ⟨fun ht e => ?_, fun ht => ?_⟩
    · unfold get_leads_stats
      rw [if_neg (not_not_intro ht)]
      simp
    · unfold get_leads_stats
      rw [if_pos ht]
  · intro db c s v u
    refine ⟨fun ht e => ?_, fun ht => ?_⟩
    · unfold get_all_leads
      rw [if_neg (not_not_intro ht)]
      simp
    · unfold get_all_leads
      rw [if_pos ht]
  · intro db u
    refine ⟨fun ht e => ?_, fun ht => ?_⟩
    · unfold get_dashboard
      rw [if_neg (not_not_intro ht)]
      simp
    · unfold get_dashboard
      rw [if_pos ht]
  · intro db f c s v u
    refine ⟨fun ht e he => ?_, fun ht => ?_⟩
    · unfold export_leads at he
      rw [if_neg (not_not_intro ht)] at he
      dsimp only at he
      repeat' split at he
      all_goals first
        | (injection he with h; subst h; exact ⟨by decide, by decide⟩)
        | exact Except.noConfusion he
    · unfold export_leads
      rw [if_pos ht]
  · intro db lid upd u now aid
    refine ⟨fun ht e he => ?_, fun ht => ?_⟩
    · unfold update_lead at he
      rw [if_neg (not_not_intro ht)] at he
      dsimp only at he
      repeat' split at he
      all_goals first
        | (injection he with h; subst h; exact ⟨by decide, by decide⟩)
        | exact Except.noConfusion he
    · unfold update_lead
      rw [if_pos ht]
  · intro db u
    refine ⟨fun ht e => ?_, fun ht => ?_⟩
    · unfold get_users
      rw [if_neg (not_not_intro ht)]
      simp
    · unfold get_users
      rw [if_pos ht]
  · intro db d u salt uid now aid
    refine ⟨fun ht e he => ?_, fun ht => ?_⟩
    · unfold create_user at he
      rw [if_neg (not_not_intro ht)] at he
      dsimp only at he
      repeat' split at he
      all_goals first
        | (injection he with h; subst h; exact ⟨by decide, by decide⟩)
        | exact Except.noConfusion he
    · unfold create_user
      rw [if_pos ht]
  · intro db uid upds u salt now aid
    refine ⟨fun ht e he => ?_, fun ht => ?_⟩
    · unfold update_user at he
      rw [if_neg (not_not_intro ht)] at he
      dsimp only at he
      repeat' split at he
      all_goals first
        | (injection he with h; subst h; exact ⟨by decide, by decide⟩)
        | exact Except.noConfusion he
    · unfold update_user
      rw [if_pos ht]
  · intro db course u aid now
    refine ⟨fun ht e => ?_, fun ht => ?_⟩
    · unfold create_course
      rw [if_neg (not_not_intro ht)]
      simp
    · unfold create_course
      rw [if_pos ht]
  · intro db st u aid now
    refine ⟨fun ht e => ?_, fun ht => ?_⟩
    · unfold create_lead_status
      rw [if_neg (not_not_intro ht)]
      simp
    · unfold create_lead_status
      rw [if_pos ht]
  · intro db lim u
    refine ⟨fun ht e => ?_, fun ht => ?_⟩
    · unfold get_audit_logs
      rw [if_neg (not_not_intro ht)]
      simp
    · unfold get_audit_logs
      rw [if_pos ht]
  · intro db u aid now
    refine ⟨fun ht e => ?_, fun ht => ?_⟩
    · unfold backup_system
      rw [if_neg (not_not_intro ht)]
      simp
    · unfold backup_system
      rw [if_pos ht]
  · exact fun db => ⟨_, rfl⟩
  · exact fun db => ⟨_, rfl⟩

/-- C1 witness. -/
theorem role_gates_witness :
    create_lead demoDB novoAlunoPayload coordUser "l-9" "t" "a-9" =
      .error ⟨403, "Apenas vendedores podem criar leads"⟩ ∧
    get_dashboard demoDB vendUser = .error ⟨403, "Acesso negado"⟩ ∧
    backup_system demoDB coordUser "a-1" "t" = .error ⟨403, "Acesso negado"⟩ ∧
    get_users demoDB vendUser = .error ⟨403, "Acesso negado"⟩ :=
  ⟨(role_gates_match_amended_table.1 demoDB novoAlunoPayload coordUser "l-9" "t" "a-9").2
     (by decide),
   (role_gates_match_amended_table.2.2.2.2.1 demoDB vendUser).2 (by decide),
   (role_gates_match_amended_table.2.2.2.2.2.2.2.2.2.2.2.2.2.1 demoDB coordUser "a-1" "t").2
     (by decide),
   (role_gates_match_amended_table.2.2.2.2.2.2.2.1 demoDB vendUser).2 (by decide)⟩

/-! ## C9 -/

/-- The key `senha_hash` never survives the strip/projection. -/
theorem stripSenhaHash_no_key (doc : List (String × Value)) :
    "senha_hash" ∉ (stripSenhaHash doc).map Prod.fst := by
  intro h
  rcases List.mem_map.mp h with ⟨kv, hkv, hfst⟩
  rcases List.mem_filter.mp hkv with ⟨-, hne⟩
  exact (by simpa using hne : kv.1 ≠ "senha_hash") hfst

/-- C9: every user-record-bearing response strips or projects away the
stored password hash before it is serialized: the login response, the
own-profile response, the user-list rows, the user-update response and the
users sheet of the backup all lack the key `senha_hash`. -/
theorem senha_hash_never_serialized :
    (∀ db req now tok, login db req now = .ok tok →
       "senha_hash" ∉ tok.user.map Prod.fst) ∧
    (∀ u : UserRec, "senha_hash" ∉ (get_me u).map Prod.fst) ∧
    (∀ db u rows, get_users db u = .ok rows →
       ∀ row ∈ rows, "senha_hash" ∉ row.map Prod.fst) ∧
    (∀ db uid upds (u : UserRec) salt now aid row db2,
       update_user db uid upds u salt now aid = .ok (row, db2) →
       "senha_hash" ∉ row.map Prod.fst) ∧
    (∀ db (u : UserRec) aid now bf db2, backup_system db u aid now = .ok (bf, db2) →
       ∀ row ∈ bf.usuarios, "senha_hash" ∉ row.map Prod.fst) := by
  refine ⟨?_, ?_, ?_, ?_, ?_⟩
  · intro db req now tok h
    unfold login at h
    repeat' split at h
    all_goals first
      | exact Except.noConfusion h
      | (injection h with h; subst h; exact stripSenhaHash_no_key _)
  · exact fun u => stripSenhaHash_no_key (userDocFields u)
  · intro db u rows h
    unfold get_users at h
    split at h
    · exact Except.noConfusion h
    · injection h with h
      subst h
      intro row hrow
      rcases List.mem_map.mp hrow with ⟨u2, -, rfl⟩
      exact stripSenhaHash_no_key _
  · intro db uid upds u salt now aid row db2 h
    unfold update_user at h
    dsimp only at h
    repeat' split at h
    all_goals first
      | exact Except.noConfusion h
      | (injection h with h
         injection h with h1 h2
         subst h1
         exact stripSenhaHash_no_key _)
  · intro db u aid now bf db2 h
    unfold backup_system at h
    split at h
    · exact Except.noConfusion h
    · injection h with h
      injection h with h1 h2
      subst h1
      intro row hrow
      rcases List.mem_map.mp hrow with ⟨u2, -, rfl⟩
      exact stripSenhaHash_no_key _

/-- C9 witness. -/
theorem senha_hash_never_serialized_witness :
    "senha_hash" ∉
      (List.map Prod.fst
        (Token.user { access_token := create_access_token vendUser.id vendUser.tipo 0,
                      token_type := "bearer",
                      user := stripSenhaHash (userDocFields vendUser) })) ∧
    "senha_hash" ∉ (get_me admUser).map Prod.fst :=
  ⟨senha_hash_never_serialized.1 demoDB
     { email := "vendedor@lead.com.br", senha := "vendedor123" } 0 _ rfl,
   senha_hash_never_serialized.2.1 admUser⟩

/-! ## C5 -/

/-- C5: each successful mutation — create/update of a lead, create/update
of a user, create of a course or of a lead-status, and a backup — appends
exactly one audit entry, whose `acao`, `entidade` and `entidade_id` name
that mutation, to the end of the existing log (the old log is a prefix of
the new one: nothing is rewritten or deleted), and the final state already
contains the business mutation the entry documents. -/
theorem audit_one_entry_per_mutation :
    (∀ db d (u : UserRec) lid now aid lead db2,
       create_lead db d u lid now aid = .ok (lead, db2) →
       db2.audit_logs = db.audit_logs ++
         [{ id := aid, usuario_id := u.id, usuario_nome := u.nome, acao := "CREATE",
            entidade := "lead", entidade_id := lead.id,
            detalhes := some ("Lead criado: " ++ lead.nome_completo), criado_em := now }] ∧
       lead ∈ db2.leads) ∧
    (∀ db lid upd (u : UserRec) now aid lead db2,
       update_lead db lid upd u now aid = .ok (lead, db2) →
       db2.audit_logs = db.audit_logs ++
         [{ id := aid, usuario_id := u.id, usuario_nome := u.nome, acao := "UPDATE",
            entidade := "lead", entidade_id := lid,
            detalhes := some "Lead atualizado", criado_em := now }] ∧
       lead ∈ db2.leads) ∧
    (∀ db d (u : UserRec) salt uid now aid user db2,
       create_user db d u salt uid now aid = .ok (user, db2) →
       db2.audit_logs = db.audit_logs ++
         [{ id := aid, usuario_id := u.id, usuario_nome := u.nome, acao := "CREATE",
            entidade := "user", entidade_id := user.id,
            detalhes := some ("Usuário criado: " ++ user.email), criado_em := now }] ∧
       user ∈ db2.users) ∧
    (∀ db uid upds (u : UserRec) salt now aid row db2,
       update_user db uid upds u salt now aid = .ok (row, db2) →
       db2.audit_logs = db.audit_logs ++
         [{ id := aid, usuario_id := u.id, usuario_nome := u.nome, acao := "UPDATE",
            entidade := "user", entidade_id := uid,
            detalhes := some "Usuário atualizado", criado_em := now }]) ∧
    (∀ db course (u : UserRec) aid now r db2,
       create_course db course u aid now = .ok (r, db2) →
       db2.audit_logs = db.audit_logs ++
         [{ id := aid, usuario_id := u.id, usuario_nome := u.nome, acao := "CREATE",
            entidade := "course", entidade_id := course.id,
            detalhes := some ("Curso criado: " ++ course.nome), criado_em := now }] ∧
       course ∈ db2.courses) ∧
    (∀ db st (u : UserRec) aid now r db2,
       create_lead_status db st u aid now = .ok (r, db2) →
       db2.audit_logs = db.audit_logs ++
         [{ id := aid, usuario_id := u.id, usuario_nome := u.nome, acao := "CREATE",
            entidade := "lead_status", entidade_id := st.id,
            detalhes := some ("Status criado: " ++ st.nome), criado_em := now }] ∧
       st ∈ db2.lead_status) ∧
    (∀ db (u : UserRec) aid now bf db2,
       backup_system db u aid now = .ok (bf, db2) →
       db2.audit_logs = db.audit_logs ++
         [{ id := aid, usuario_id := u.id, usuario_nome := u.nome, acao := "BACKUP",
            entidade := "system", entidade_id := "full",
            detalhes := some "Backup completo realizado", criado_em := now }]) := by
  refine ⟨?_, ?_, ?_, ?_, ?_, ?_, ?_⟩
  · intro db d u lid now aid lead db2 h
    unfold create_lead at h
    dsimp only at h
    split at h
    · exact Except.noConfusion h
    · injection h with h
      injection h with h1 h2
      subst h1
      subst h2
      exact ⟨rfl, by simp [log_audit]⟩
  · intro db lid upd u now aid lead db2 h
    unfold update_lead at h
    dsimp only at h
    split at h
    · exact Except.noConfusion h
    · split at h
      · exact Except.noConfusion h
      · split at h
        · exact Except.noConfusion h
        · rename_i ul heq
          injection h with h
          injection h with h1 h2
          subst h1
          subst h2
          exact ⟨rfl, List.mem_of_find?_eq_some heq⟩
  · intro db d u salt uid now aid user db2 h
    unfold create_user at h
    dsimp only at h
    split at h
    · exact Except.noConfusion h
    · split at h
      · exact Except.noConfusion h
      · injection h with h
        injection h with h1 h2
        subst h1
        subst h2
        exact ⟨rfl, by simp [log_audit]⟩
  · intro db uid upds u salt now aid row db2 h
    unfold update_user at h
    dsimp only at h
    split at h
    · exact Except.noConfusion h
    · split at h
      · exact Except.noConfusion h
      · split at h
        · exact Except.noConfusion h
        · injection h with h
          injection h with h1 h2
          subst h2
          rfl
  · intro db course u aid now r db2 h
    unfold create_course at h
    dsimp only at h
    split at h
    · exact Except.noConfusion h
    · injection h with h
      injection h with h1 h2
      subst h2
      exact ⟨rfl, by simp [log_audit]⟩
  · intro db st u aid now r db2 h
    unfold create_lead_status at h
    dsimp only at h
    split at h
    · exact Except.noConfusion h
    · injection h with h
      injection h with h1 h2
      subst h2
      exact ⟨rfl, by simp [log_audit]⟩
  · intro db u aid now bf db2 h
    unfold backup_system at h
    dsimp only at h
    split at h
    · exact Except.noConfusion h
    · injection h with h
      injection h with h1 h2
      subst h2
      rfl

/-- C5 witness. -/
theorem audit_one_entry_witness :
    ∃ lead db2,
      create_lead demoDB novoAlunoPayload vendUser "l-9" "2024-03-05T10:00:00+00:00" "a-9" =
        .ok (lead, db2) ∧
      db2.audit_logs = demoDB.audit_logs ++
        [{ id := "a-9", usuario_id := vendUser.id, usuario_nome := vendUser.nome,
           acao := "CREATE", entidade := "lead", entidade_id := lead.id,
           detalhes := some ("Lead criado: " ++ lead.nome_completo),
           criado_em := "2024-03-05T10:00:00+00:00" }] ∧
      lead ∈ db2.leads := by
  refine ⟨_, _, rfl, ?_⟩
  exact audit_one_entry_per_mutation.1 demoDB novoAlunoPayload vendUser "l-9"
    "2024-03-05T10:00:00+00:00" "a-9" _ _ rfl

/-! ## C10 -/

/-- C10: bearer-token resolution never consults the `ativo` flag — a
deactivated user with a valid, unexpired token whose subject matches an
existing record authenticates successfully; every role-gated handler
behaves identically whatever the caller's `ativo` value; only `login`
rejects a deactivated account (with 403). -/
theorem auth_ignores_ativo :
    (∀ db (p : TokenPayload) now uid (u : UserRec), u.ativo = false → now < p.exp →
       p.sub = some uid → db.users.find? (fun x => x.id == uid) = some u →
       get_current_user db (.signed p) now = .ok u) ∧
    (∀ db d (u : UserRec) lid now aid b,
       create_lead db d { u with ativo := b } lid now aid = create_lead db d u lid now aid) ∧
    (∀ db (u : UserRec) b, get_my_leads db { u with ativo := b } = get_my_leads db u) ∧
    (∀ db (u : UserRec) b, get_leads_stats db { u with ativo := b } = get_leads_stats db u) ∧
    (∀ db c s v (u : UserRec) b,
       get_all_leads db c s v { u with ativo := b } = get_all_leads db c s v u) ∧
    (∀ db lid upd (u : UserRec) now aid b,
       update_lead db lid upd { u with ativo := b } now aid = update_lead db lid upd u now aid) ∧
    (∀ db (u : UserRec) b, get_dashboard db { u with ativo := b } = get_dashboard db u) ∧
    (∀ db f c s v (u : UserRec) b,
       export_leads db f c s v { u with ativo := b } = export_leads db f c s v u) ∧
    (∀ db (u : UserRec) b, get_users db { u with ativo := b } = get_users db u) ∧
    (∀ db d (u : UserRec) salt uid now aid b,
       create_user db d { u with ativo := b } salt uid now aid =
         create_user db d u salt uid now aid) ∧
    (∀ db uid upds (u : UserRec) salt now aid b,
       update_user db uid upds { u with ativo := b } salt now aid =
         update_user db uid upds u salt now aid) ∧
    (∀ db course (u : UserRec) aid now b,
       create_course db course { u with ativo := b } aid now = create_course db course u aid now) ∧
    (∀ db st (u : UserRec) aid now b,
       create_lead_status db st { u with ativo := b } aid now =
         create_lead_status db st u aid now) ∧
    (∀ db lim (u : UserRec) b,
       get_audit_logs db lim { u with ativo := b } = get_audit_logs db lim u) ∧
    (∀ db (u : UserRec) aid now b,
       backup_system db { u with ativo := b } aid now = backup_system db u aid now) ∧
    (∀ db req now u, db.users.find? (fun x => x.email == req.email) = some u →
       verify_password req.senha u.senha_hash = .ok true → u.ativo = false →
       login db req now = .error ⟨403, "Usuário desativado"⟩) := by
  refine ⟨?_, fun _ _ _ _ _ _ _ => rfl, fun _ _ _ => rfl, fun _ _ _ => rfl,
    fun _ _ _ _ _ _ => rfl, fun _ _ _ _ _ _ _ => rfl, fun _ _ _ => rfl,
    fun _ _ _ _ _ _ _ => rfl, fun _ _ _ => rfl, fun _ _ _ _ _ _ _ _ => rfl,
    fun _ _ _ _ _ _ _ _ => rfl, fun _ _ _ _ _ _ => rfl, fun _ _ _ _ _ _ => rfl,
    fun _ _ _ _ => rfl, fun _ _ _ _ _ => rfl, ?_⟩
  · intro db p now uid u hativo hexp hsub hfind
    unfold get_current_user
    dsimp only
    rw [if_neg (by omega : ¬ p.exp ≤ now)]
    simp [hsub, hfind]
  · intro db req now u hu hv hativo
    unfold login verify_password
    simp only [verify_password] at hv
    simp [hu, hv, hativo]

/-- C10 witness: `inactiveVend` is deactivated yet a valid token for it
resolves, the deactivated seller can run seller-gated operations exactly
like an active one, and only `login` turns the deactivated flag into a
403. -/
theorem auth_ignores_ativo_witness :
    inactiveVend.ativo = false ∧
    get_current_user demoDB
      (.signed { sub := some "u-vend2", tipo := "vendedor", exp := 100 }) 0 =
      .ok inactiveVend ∧
    get_my_leads demoDB { inactiveVend with ativo := false } =
      get_my_leads demoDB inactiveVend ∧
    login demoDB { email := "inativo@lead.com.br", senha := "vendedor123" } 0 =
      .error ⟨403, "Usuário desativado"⟩ :=
  ⟨rfl,
   auth_ignores_ativo.1 demoDB { sub := some "u-vend2", tipo := "vendedor", exp := 100 }
     0 "u-vend2" inactiveVend rfl (by decide) rfl (by decide),
   auth_ignores_ativo.2.2.1 demoDB inactiveVend false,
   auth_ignores_ativo.2.2.2.2.2.2.2.2.2.2.2.2.2.2.2 demoDB
     { email := "inativo@lead.com.br", senha := "vendedor123" } 0 inactiveVend
     (by decide) (by decide) rfl⟩

/-! ## C6 -/

/-- Each bucket's count is the `countP` of its own key. -/
theorem monthlyBuckets_count (cr : List String) (x : String × Nat)
    (hx : x ∈ monthlyBuckets cr) :
    x.2 = cr.countP (fun s => substr7 s == x.1) := by
  rcases List.mem_map.mp hx with ⟨k, hk, rfl⟩
  rfl

/-- The bucket keys are exactly the distinct month keys. -/
theorem monthlyBuckets_keys (cr : List String) :
    (monthlyBuckets cr).map Prod.fst = (cr.map substr7).dedup := by
  unfold monthlyBuckets
  rw [List.map_map]
  exact List.map_id _

/-- `sortPeriodsDesc` permutes its input. -/
theorem sortPeriodsDesc_perm (l : List (String × Nat)) : (sortPeriodsDesc l).Perm l :=
  List.perm_insertionSort _ l

/-- `sortPeriodsDesc` sorts by descending key. -/
theorem sortPeriodsDesc_sorted (l : List (String × Nat)) :
    List.Sorted (fun a b => strLe b.1 a.1) (sortPeriodsDesc l) :=
  List.sorted_insertionSort _ l

/-- C6: `get_leads_stats` for a seller reports the seller's lead count as
`total` and per-calendar-month buckets (key = first 7 characters of the
stored ISO creation timestamp) with exact counts, strictly descending by
period, at most 12 of them, missing no month while under the cap; on the
concrete three-lead store the buckets are `[("2024-02", 1), ("2024-01", 2)]`
in that order. -/
theorem own_stats_buckets (db : DB) (u : UserRec) :
    u.tipo = "vendedor" →
    ∃ s, get_leads_stats db u = .ok s ∧
      s.total = (db.leads.filter (fun l => l.vendedor_id == u.id)).length ∧
      (∀ p ∈ s.monthly,
         p.2 = ((db.leads.filter (fun l => l.vendedor_id == u.id)).filter
                  (fun l => substr7 l.criado_em == p.1)).length) ∧
      s.monthly.Pairwise (fun a b => strLt b.1 a.1) ∧
      s.monthly.length ≤ 12 ∧
      (∀ l ∈ db.leads.filter (fun l => l.vendedor_id == u.id),
         s.monthly.length < 12 → substr7 l.criado_em ∈ s.monthly.map Prod.fst) ∧
      get_leads_stats demoDB vendUser =
        .ok { total := 3, monthly := [("2024-02", 1), ("2024-01", 2)] } := by
  intro ht
  unfold get_leads_stats
  rw [if_neg (not_not_intro ht)]
  dsimp only
  refine ⟨_, rfl, rfl, ?_, ?_, ?_, ?_, by decide⟩
  · intro p hp
    have hmem : p ∈ monthlyBuckets ((db.leads.filter
        (fun l => l.vendedor_id == u.id)).map (·.criado_em)) := by
      have := List.mem_of_mem_take hp
      unfold sortPeriodsDesc at this
      exact (List.mem_insertionSort _).mp this
    have h1 := monthlyBuckets_count _ p hmem
    rw [h1, List.countP_map, List.countP_eq_length_filter]
    rfl
  · have hsorted := sortPeriodsDesc_sorted (monthlyBuckets ((db.leads.filter
      (fun l => l.vendedor_id == u.id)).map (·.criado_em)))
    have hnodup : ((sortPeriodsDesc (monthlyBuckets ((db.leads.filter
        (fun l => l.vendedor_id == u.id)).map (·.criado_em)))).map Prod.fst).Nodup := by
      rw [((sortPeriodsDesc_perm _).map Prod.fst).nodup_iff, monthlyBuckets_keys]
      exact List.nodup_dedup _
    have hnepair := List.pairwise_map.mp hnodup
    have hstrict := (hsorted.and hnepair).imp
      (fun {a b} h => lt_of_le_of_ne h.1 (fun hdata => h.2 ((String.ext hdata).symm)))
    exact List.Pairwise.sublist (List.take_sublist _ _) hstrict
  · rw [List.length_take]
    exact min_le_left _ _
  · intro l hl hlen
    rw [List.length_take] at hlen
    have hlt : (sortPeriodsDesc (monthlyBuckets ((db.leads.filter
        (fun l => l.vendedor_id == u.id)).map (·.criado_em)))).length < 12 := by
      omega
    dsimp only
    rw [List.take_of_length_le (le_of_lt hlt)]
    rw [((sortPeriodsDesc_perm _).map Prod.fst).mem_iff, monthlyBuckets_keys, List.mem_dedup]
    exact List.mem_map_of_mem _ (List.mem_map_of_mem _ hl)

/-- C6 witness. -/
theorem own_stats_buckets_witness :
    ∃ s, get_leads_stats demoDB vendUser = .ok s ∧
      s.total = (demoDB.leads.filter (fun l => l.vendedor_id == vendUser.id)).length ∧
      (∀ p ∈ s.monthly,
         p.2 = ((demoDB.leads.filter (fun l => l.vendedor_id == vendUser.id)).filter
                  (fun l => substr7 l.criado_em == p.1)).length) ∧
      s.monthly.Pairwise (fun a b => strLt b.1 a.1) ∧
      s.monthly.length ≤ 12 ∧
      (∀ l ∈ demoDB.leads.filter (fun l => l.vendedor_id == vendUser.id),
         s.monthly.length < 12 → substr7 l.criado_em ∈ s.monthly.map Prod.fst) ∧
      get_leads_stats demoDB vendUser =
        .ok { total := 3, monthly := [("2024-02", 1), ("2024-01", 2)] } :=
  own_stats_buckets demoDB vendUser rfl

end Uninorte
